import Mathlib

/-!
Verification of `src/packages/utils-connector-tools/src/requester.ts`.

Byte buffers are embedded as lists of naturals (one per byte); JavaScript
strings as Lean `String`.  External collaborators (the `request` HTTP client,
`zlib`/`iltorb` decompression primitives, `iconv-lite`, `data-urls`,
`@hint/utils`) are passed in as explicit capability records, matching §6 of
the specification.  The `RedirectManager` class is imported by the source
from `./redirects`, a file that is not part of the sources provided, so it
is modelled from the specification (§4.1).
-/

/-- A byte buffer (Node `Buffer`): a list of byte values. -/
abbrev Buffer := List Nat

/-- HTTP headers: an association list of name/value pairs (first match wins,
as produced by the `request` library with lower-cased names). -/
abbrev HttpHeaders := List (String × String)

namespace JS

/-- JavaScript `String.prototype.split(sep)` restricted to a one-character
separator, on the character list. `''.split(',') = ['']`, `'a,'.split(',') =
['a','']`. -/
def splitAux (sep : Char) : List Char → List (List Char)
  | [] => [[]]
  | c :: rest =>
    if c == sep then [] :: splitAux sep rest
    else
      match splitAux sep rest with
      | t :: ts => (c :: t) :: ts
      | [] => [[c]]

/-- JavaScript `s.split(sep)` for a one-character separator. -/
def split (s : String) (sep : Char) : List String :=
  (splitAux sep s.data).map List.asString

/-- Whitespace characters removed by JavaScript `String.prototype.trim`
(the ones relevant to header token values). -/
def isSpace (c : Char) : Bool :=
  c == ' ' || c == '\t' || c == '\n' || c == '\r'

/-- JavaScript `s.trim()`: strip whitespace from both ends. -/
def trim (s : String) : String :=
  List.asString (((s.data.dropWhile isSpace).reverse.dropWhile isSpace).reverse)

/-- JavaScript `s.startsWith(p)`. -/
def startsWith (s p : String) : Bool :=
  s.data.take p.data.length == p.data

/-- JavaScript `x || ''` on a nullable string: `null` and `''` both give `''`. -/
def orEmpty (x : Option String) : String :=
  match x with
  | some s => s
  | none => ""

end JS

/-- The external decompression primitives consumed by the requester
(§6 "Decompression primitives"): `iltorb.decompress`, `zlib.gunzip`,
`zlib.inflate`, `zlib.inflateRaw`, each a fallible byte transform.
A promise rejection / thrown error is embedded as `none`. -/
structure DecompressPrimitives where
  decompressBrotli : Buffer → Option Buffer
  decompressGzip : Buffer → Option Buffer
  inflateAsync : Buffer → Option Buffer
  inflateRawAsync : Buffer → Option Buffer

/-- The `inflate` wrapper (requester.ts lines 35-48): sniff the two-byte
zlib header (RFC 1950 §2.2: `CM` nibble 8 and first 16 bits a multiple of 31)
to choose wrapped-zlib inflation vs raw-deflate inflation.  A buffer with a
single byte whose low nibble is 8 makes `readUInt16BE(0)` throw in the
source; that throw is swallowed by `tryToDecompress`, hence `none` here.
An empty buffer reads `buff[0]` as `undefined`, whose `& 0x0f` is `0`. -/
def inflate (d : DecompressPrimitives) (buff : Buffer) : Option Buffer :=
  match buff with
  | [] => d.inflateRawAsync []
  | [b0] => if b0 % 16 == 8 then none else d.inflateRawAsync [b0]
  | b0 :: b1 :: _ =>
    if b0 % 16 == 8 && (b0 * 256 + b1) % 31 == 0 then d.inflateAsync buff
    else d.inflateRawAsync buff

/-- The `identity` decompressor (requester.ts lines 50-52): resolves with a
copy of the buffer, so it never fails. -/
def identity (buff : Buffer) : Option Buffer :=
  some buff

/-- `tryToDecompress` (requester.ts lines 83-92): run one decompressor,
mapping any failure to `null`. -/
def tryToDecompress (decompressor : Buffer → Option Buffer) (content : Buffer) : Option Buffer :=
  decompressor content

/-- The `priorities` lookup inside `decompressors` (requester.ts lines
96-101), as a partial map: `priorities[name]` with `undefined` as `none`. -/
def priorityOf (name : String) : Option Nat :=
  if name = "br" then some 0
  else if name = "gzip" then some 1
  else if name = "deflate" then some 2
  else if name = "identity" then some 3
  else none

/-- `decompressors` (requester.ts lines 95-116): the priority-ordered
candidate functions for a declared algorithm token.  Note the source checks
`priorities[algorithm.trim()]` for definedness but then indexes with the
untrimmed `priorities[algorithm]`; `functions.slice(undefined)` copies the
whole array, which the last case reproduces. -/
def decompressors (d : DecompressPrimitives) (algorithm : String) : List (Buffer → Option Buffer) :=
  let functions := [d.decompressBrotli, d.decompressGzip, inflate d, identity]
  match priorityOf (JS.trim algorithm) with
  | none => functions.drop 3
  | some _ =>
    match priorityOf algorithm with
    | some priority => functions.drop priority
    | none => functions

/-- The `for (const decompressor of decompressors)` loop in
`decompressResponse` (requester.ts lines 147-153): take the first
decompressor that succeeds; `null` when every candidate fails. -/
def firstSuccess : List (Buffer → Option Buffer) → Buffer → Option Buffer
  | [], _ => none
  | f :: fs, raw =>
    match tryToDecompress f raw with
    | some rawBody => some rawBody
    | none => firstSuccess fs raw

/-- The token-consuming recursion of `decompressResponse` (requester.ts lines
144-160), with the comma-separated algorithm list held as a list of tokens.
The source re-joins the tail with `','` and re-splits it on the recursive
call; since split tokens never contain `','` (and a lone `''` tail re-splits
to `['']`), recursing structurally on the token list is equivalent.  The
`shift()`ed head token is trimmed at the call site of `decompressors`. -/
def decompressChain (d : DecompressPrimitives) : List String → Buffer → Option Buffer
  | [], _ => none
  | a :: rest, rawBodyResponse =>
    match firstSuccess (decompressors d (JS.trim a)) rawBodyResponse with
    | some rawBody => if rest.isEmpty then some rawBody else decompressChain d rest rawBody
    | none => none

/-- `decompressResponse` (requester.ts lines 125-161): split the declared
`Content-Encoding` on commas and run the cascade for each token in turn.
A `null` (or falsy `''`) declaration becomes the single token `''`; note
`JS.split "" ','` is `[""]`, matching the source's falsy check. -/
def decompressResponse (d : DecompressPrimitives) (contentEncoding : Option String)
    (rawBodyResponse : Buffer) : Option Buffer :=
  let algorithms := match contentEncoding with
    | some ce => JS.split ce ','
    | none => [""]
  decompressChain d algorithms rawBodyResponse

/-- Modelled from the spec: the state of `RedirectManager` (the source imports
it from `./redirects`, which is not among the provided sources).  Spec §3:
"a mapping from URI → URI-that-redirected-to-it".  An association list where
`add` prepends and the first match wins. -/
abbrev RedirectMap := List (String × String)

namespace RedirectManager

/-- Modelled from the spec: `add(target, source)` "records that fetching
`source` produced a redirect to `target`.  Side effect: stores/overwrites the
predecessor of `target`" (§4.1).  Prepending shadows any older entry. -/
def add (m : RedirectMap) (target source : String) : RedirectMap :=
  (target, source) :: m

/-- Modelled from the spec: the predecessor walk of `calculate`, bounded by
fuel because the walk "must terminate even if a cycle exists in stored data
by bounding the walk" (§4.1). -/
def calcWalk (m : RedirectMap) : Nat → String → List String
  | 0, _ => []
  | fuel + 1, uri =>
    match m.lookup uri with
    | none => [uri]
    | some pred => calcWalk m fuel pred ++ [uri]

/-- Modelled from the spec: `calculate(uri)` "returns the ordered sequence of
URIs from the earliest recorded ancestor down to `uri` inclusive, by walking
predecessor links until none exists" (§4.1); a URI with no recorded
predecessor yields the empty chain ("`hops` ... empty if no redirects
occurred", §3), and for A→B→C→D the result at D is `[A, B, C, D]` (§8). -/
def calculate (m : RedirectMap) (uri : String) : List String :=
  match m.lookup uri with
  | none => []
  | some _ => calcWalk m (m.length + 1) uri

end RedirectManager

/-- Result of `getContentTypeData` (§6): resolved media type and charset,
either possibly `null`. -/
structure ContentTypeData where
  charset : Option String
  mediaType : Option String

/-- Result of the external `data-urls` parser (§6): payload bytes, the
`charset` media-type parameter when present, and the media type's string
form. -/
structure ParsedDataURL where
  body : Buffer
  charsetParam : Option String
  mimeTypeString : String

/-- The external capabilities consumed by the requester (§6): header
normalization and key lower-casing from `@hint/utils`, content-type/charset
resolution, the `iconv-lite` charset decoder and its support predicate,
`url.resolve`, and the `data-urls` parser. -/
structure Caps where
  normalizeHeaderValue : HttpHeaders → String → Option String
  getContentTypeData : Option String → String → HttpHeaders → Option Buffer → ContentTypeData
  encodingExists : String → Bool
  decode : Buffer → String → String
  urlResolve : String → String → String
  parseDataURL : String → ParsedDataURL

/-- The value stored in `body.content`.  The terminal path stores a decoded
string (or `null`); the data-URI path stores the parsed payload `Buffer`
itself (`content: parsedDataURL.body as any`, requester.ts line 201). -/
inductive BodyContent where
  | str (s : String)
  | buf (b : Buffer)
deriving DecidableEq

/-- The `body` record of a `NetworkData` response.  `rawResponse` holds the
value the thunk `() => Promise.resolve(...)` resolves with: the captured
wire bytes. -/
structure BodyData where
  content : Option BodyContent
  rawContent : Option Buffer
  rawResponse : Buffer
deriving DecidableEq

/-- The `request` half of `NetworkData`. -/
structure RequestData where
  headers : HttpHeaders
  url : String
deriving DecidableEq

/-- The `response` half of `NetworkData`. -/
structure ResponseData where
  body : BodyData
  charset : String
  headers : HttpHeaders
  hops : List String
  mediaType : String
  statusCode : Nat
  url : String
deriving DecidableEq

/-- The `NetworkData` record returned by `Requester#get`. -/
structure NetworkData where
  request : RequestData
  response : ResponseData
deriving DecidableEq

/-- What the transport reports for one requested URI: either a transport
error or a response with status code, response headers, the headers actually
sent, and the raw bytes observed on the wire by the `response`/`data`/`end`
capture (requester.ts lines 323-331). -/
inductive ServerBehavior where
  | err
  | resp (statusCode : Nat) (headers : HttpHeaders) (requestHeaders : HttpHeaders) (wire : Buffer)

/-- Outcome of a `get` call: a resolved `NetworkData` or one of the
rejections of requester.ts (network error with its URI, missing `Location`,
redirect loop with the URI whose fetch failed, or too many redirects with
the computed count and the limit).  `outOfFuel` is a model artifact marking
exhausted recursion fuel, never produced in the runs proved about. -/
inductive GetResult where
  | ok (data : NetworkData)
  | errNetwork (uri : String)
  | errMissingLocation (uri : String)
  | errRedirectLoop (uri : String)
  | errTooManyRedirects (count maxRedirects : Nat)
  | outOfFuel
deriving DecidableEq

namespace Requester

/-- `Requester.validRedirects` (requester.ts line 72). -/
def validRedirects : List Nat :=
  [301, 302, 303, 307, 308]

/-- JavaScript `hops[0] || uriString` (requester.ts line 295): the first hop
when present and truthy, else the requested URI. -/
def jsHeadOr (hops : List String) (uriString : String) : String :=
  match hops with
  | h :: _ => if h = "" then uriString else h
  | [] => uriString

/-- Assembly of the terminal (non-redirect, non-data-URI) `NetworkData`
(requester.ts lines 284-312): normalize `content-encoding`, run the
decompression cascade on the captured wire bytes, resolve media type and
charset from the decompressed bytes (the source passes the top-level `uri`
of the `get` call, not the current `uriString`), compute hops for the
terminal URI, and decode the body only when `iconv` knows the charset. -/
def buildTerminal (caps : Caps) (d : DecompressPrimitives) (m : RedirectMap)
    (uri0 uriString : String) (statusCode : Nat) (headers reqHeaders : HttpHeaders)
    (rawBodyResponse : Buffer) : NetworkData :=
  let contentEncoding := caps.normalizeHeaderValue headers "content-encoding"
  let rawBody := decompressResponse d contentEncoding rawBodyResponse
  let contentTypeData := caps.getContentTypeData none uri0 headers rawBody
  let charset := JS.orEmpty contentTypeData.charset
  let mediaType := JS.orEmpty contentTypeData.mediaType
  let hops := RedirectManager.calculate m uriString
  let body : Option String :=
    match rawBody with
    | some rb => if caps.encodingExists charset then some (caps.decode rb charset) else none
    | none => none
  { request := { headers := reqHeaders, url := jsHeadOr hops uriString },
    response := {
      body := { content := body.map BodyContent.str,
                rawContent := rawBody,
                rawResponse := rawBodyResponse },
      charset := charset,
      headers := headers,
      hops := hops,
      mediaType := mediaType,
      statusCode := statusCode,
      url := uriString } }

/-- The inner `getUri` closure of `Requester#get` (requester.ts lines
234-333), as a fuel-indexed function of the redirect map and the visited-URI
set `requestedUrls`.  `uri0` is the outer `get` argument captured by the
closure (used by `getContentTypeData`).  On a redirect status: reject on a
missing/empty `Location`, resolve the target, reject a revisited target as a
loop before touching the redirect map, otherwise record the edge, reject
when the recomputed chain length exceeds `maxRedirects`, and recurse. -/
def getUri (caps : Caps) (d : DecompressPrimitives) (server : String → ServerBehavior)
    (maxRedirects : Nat) (uri0 : String) :
    Nat → RedirectMap → List String → String → GetResult × RedirectMap
  | 0, m, _, _ => (.outOfFuel, m)
  | fuel + 1, m, requestedUrls, uriString =>
    let requestedUrls := uriString :: requestedUrls
    match server uriString with
    | .err => (.errNetwork uriString, m)
    | .resp statusCode headers reqHeaders wire =>
      if validRedirects.contains statusCode then
        match headers.lookup "location" with
        | none => (.errMissingLocation uriString, m)
        | some location =>
          if location = "" then (.errMissingLocation uriString, m)
          else
            let newUri := caps.urlResolve uriString location
            if requestedUrls.contains newUri then
              (.errRedirectLoop uriString, m)
            else
              let m' := RedirectManager.add m newUri uriString
              let currentRedirectNumber := (RedirectManager.calculate m' newUri).length
              if currentRedirectNumber > maxRedirects then
                (.errTooManyRedirects currentRedirectNumber maxRedirects, m')
              else
                getUri caps d server maxRedirects uri0 fuel m' requestedUrls newUri
      else
        (.ok (buildTerminal caps d m uri0 uriString statusCode headers reqHeaders wire), m)

/-- `getResourceNetworkDataFromDataUri` (requester.ts lines 191-217): parse
the data URI and build the `NetworkData` directly, with status 200, empty
header maps, no hops, the `charset` media-type parameter (`|| ''`), the mime
type's string form, and the payload bytes as content, raw content and raw
response alike. -/
def getResourceNetworkDataFromDataUri (caps : Caps) (uri : String) : NetworkData :=
  let parsedDataURL := caps.parseDataURL uri
  { request := { headers := [], url := uri },
    response := {
      body := { content := some (BodyContent.buf parsedDataURL.body),
                rawContent := some parsedDataURL.body,
                rawResponse := parsedDataURL.body },
      charset := JS.orEmpty parsedDataURL.charsetParam,
      headers := [],
      hops := [],
      mediaType := parsedDataURL.mimeTypeString,
      statusCode := 200,
      url := uri } }

/-- `Requester#get` (requester.ts lines 225-336): data URIs short-circuit to
the data-URI resolver (leaving the redirect map untouched); anything else
starts `getUri` with a fresh empty `requestedUrls` set. -/
def get (caps : Caps) (d : DecompressPrimitives) (server : String → ServerBehavior)
    (maxRedirects : Nat) (fuel : Nat) (m : RedirectMap) (uri : String) :
    GetResult × RedirectMap :=
  if JS.startsWith uri "data:" then
    (.ok (getResourceNetworkDataFromDataUri caps uri), m)
  else
    getUri caps d server maxRedirects uri fuel m [] uri

/-- `Requester#getRedirects` (requester.ts lines 187-189). -/
def getRedirects (m : RedirectMap) (uri : String) : List String :=
  RedirectManager.calculate m uri

end Requester

/-- The recognized `request.CoreOptions` fields the requester touches, each
optional because a JavaScript options object may omit any key. -/
structure CoreOptions where
  encoding : Option (Option String) := none
  followRedirect : Option Bool := none
  rejectUnauthorized : Option Bool := none
  maxRedirects : Option Nat := none
  headers : Option HttpHeaders := none
  jar : Option Bool := none
  time : Option Bool := none
  timeout : Option Nat := none

/-- The `defaults` object (requester.ts lines 54-68).  Note there is no
`rejectUnauthorized` key and no `maxRedirects` key. -/
def requesterDefaults : CoreOptions where
  encoding := some none
  followRedirect := some false
  rejectUnauthorized := none
  maxRedirects := none
  headers := some [
    ("Accept-Encoding", "gzip, deflate, br"),
    ("Accept-Language", "en-US,en;q=0.8,es;q=0.6,fr;q=0.4"),
    ("Cache-Control", "no-cache"),
    ("DNT", "1"),
    ("Pragma", "no-cache"),
    ("User-Agent", "Mozilla/5.0 (Windows NT 10.0; Win64; x64) AppleWebKit/537.36 (KHTML, like Gecko) Chrome/74.0.3729.131 Safari/537.36")]
  jar := some true
  time := some true
  timeout := some 10000

/-- One field of `Object.assign({}, d, c)`: the later object's key wins when
present. -/
def jsAssignField {α : Type} (dv cv : Option α) : Option α :=
  match cv with
  | some v => some v
  | none => dv

/-- `Object.assign({}, defaults, customOptions)` over the recognized fields
(requester.ts line 179). -/
def assignOptions (d c : CoreOptions) : CoreOptions where
  encoding := jsAssignField d.encoding c.encoding
  followRedirect := jsAssignField d.followRedirect c.followRedirect
  rejectUnauthorized := jsAssignField d.rejectUnauthorized c.rejectUnauthorized
  maxRedirects := jsAssignField d.maxRedirects c.maxRedirects
  headers := jsAssignField d.headers c.headers
  jar := jsAssignField d.jar c.jar
  time := jsAssignField d.time c.time
  timeout := jsAssignField d.timeout c.timeout

/-- `Object.assign({}, lowerCasedDefaults, lowerCasedCustom)` on header maps
(requester.ts line 175): the custom headers' keys win. -/
def jsAssignHeaders (a b : HttpHeaders) : HttpHeaders :=
  b ++ a.filter (fun p => (b.lookup p.1).isNone)

/-- The observable state fixed by the constructor: the effective request
options, the redirect limit, and the fresh redirect map. -/
structure RequesterState where
  options : CoreOptions
  maxRedirects : Nat
  redirects : RedirectMap

/-- The `Requester` constructor (requester.ts lines 163-184).
`toLowerCaseKeys` is the external `@hint/utils` capability.  When custom
options are supplied they are mutated first: `followRedirect` and
`rejectUnauthorized` are forced to `false`, `_maxRedirects` is taken with
the falsy-or `customOptions.maxRedirects || this._maxRedirects` (initial
value 10), and a supplied `headers` object is merged over the lower-cased
defaults.  The effective options are `Object.assign({}, defaults,
customOptions)`; with no custom options they are just the defaults. -/
def mkRequester (toLowerCaseKeys : HttpHeaders → HttpHeaders)
    (customOptions : Option CoreOptions) : RequesterState :=
  match customOptions with
  | none => { options := requesterDefaults, maxRedirects := 10, redirects := [] }
  | some co =>
    let co := { co with followRedirect := some false, rejectUnauthorized := some false }
    let maxRedirects : Nat :=
      match co.maxRedirects with
      | some n => if n == 0 then 10 else n
      | none => 10
    let co :=
      match co.headers with
      | some hs =>
        { co with headers := some (jsAssignHeaders
            (toLowerCaseKeys ((requesterDefaults.headers).getD []))
            (toLowerCaseKeys hs)) }
      | none => co
    { options := assignOptions requesterDefaults co,
      maxRedirects := maxRedirects,
      redirects := [] }

/-- `isOk` projection on a `get` outcome. -/
def GetResult.isOk : GetResult → Bool
  | .ok _ => true
  | _ => false

/-- The `hops` field of a resolved outcome. -/
def GetResult.hopsOf : GetResult → Option (List String)
  | .ok nd => some nd.response.hops
  | _ => none

/-- The `request.url` field of a resolved outcome. -/
def GetResult.requestUrlOf : GetResult → Option String
  | .ok nd => some nd.request.url
  | _ => none

/-- UTF-8 bytes of an ASCII string, for concrete data-URI payloads. -/
def bytesOfString (s : String) : Buffer :=
  s.data.map Char.toNat

/-- Concrete decompression primitives for witnesses: a "brotli" stream is
tagged with a leading `1` byte, a "gzip" stream with a leading `2`, and the
inflate primitives always fail. -/
def testD : DecompressPrimitives where
  decompressBrotli := fun b => match b with | 1 :: rest => some rest | _ => none
  decompressGzip := fun b => match b with | 2 :: rest => some rest | _ => none
  inflateAsync := fun _ => none
  inflateRawAsync := fun _ => none

/-- Concrete capabilities for witnesses: header values are looked up
directly, content resolution always reports `utf-8` text/html, only `utf-8`
decodes, and `url.resolve` returns the location verbatim (absolute
targets). -/
def testCaps : Caps where
  normalizeHeaderValue := fun hs name => hs.lookup name
  getContentTypeData := fun _ _ _ _ => { charset := some "utf-8", mediaType := some "text/html" }
  encodingExists := fun c => c == "utf-8"
  decode := fun _ _ => "decoded"
  urlResolve := fun _ location => location
  parseDataURL := fun _ => { body := [], charsetParam := none, mimeTypeString := "" }

/-- Capabilities whose content resolution reports the made-up charset
`x-made-up`, which the decoder does not support. -/
def capsUnsupported : Caps where
  normalizeHeaderValue := fun hs name => hs.lookup name
  getContentTypeData := fun _ _ _ _ => { charset := some "x-made-up", mediaType := some "text/html" }
  encodingExists := fun c => c == "utf-8"
  decode := fun _ _ => "decoded"
  urlResolve := fun _ location => location
  parseDataURL := fun _ => { body := [], charsetParam := none, mimeTypeString := "" }

/-- Capabilities whose data-URI parser yields the payload of
`data:text/plain;charset=utf-8,Hello`. -/
def dataCaps : Caps where
  normalizeHeaderValue := fun hs name => hs.lookup name
  getContentTypeData := fun _ _ _ _ => { charset := some "utf-8", mediaType := some "text/html" }
  encodingExists := fun c => c == "utf-8"
  decode := fun _ _ => "decoded"
  urlResolve := fun _ location => location
  parseDataURL := fun _ =>
    { body := bytesOfString "Hello", charsetParam := some "utf-8", mimeTypeString := "text/plain" }

/-- A server that answers every URI with a terminal 200 response whose wire
bytes are `[9, 9]`. -/
def termServer : String → ServerBehavior :=
  fun _ => .resp 200 [] [] [9, 9]

/-- A server that redirects `A` to `B` and answers everything else
terminally. -/
def abServer : String → ServerBehavior :=
  fun s =>
    if s = "A" then .resp 301 [("location", "B")] [] []
    else .resp 200 [] [] [104]

/-- A server with the redirect cycle `A` → `B` → `A`. -/
def loopServer : String → ServerBehavior :=
  fun s =>
    if s = "A" then .resp 301 [("location", "B")] [] []
    else if s = "B" then .resp 301 [("location", "A")] [] []
    else .resp 200 [] [] [104]

/-- A server with an 11-redirect chain `"0" → "1" → … → "11"`; `"11"` (and
anything else) answers terminally. -/
def chain11Server : String → ServerBehavior :=
  fun s =>
    if s = "0" then .resp 301 [("location", "1")] [] []
    else if s = "1" then .resp 301 [("location", "2")] [] []
    else if s = "2" then .resp 301 [("location", "3")] [] []
    else if s = "3" then .resp 301 [("location", "4")] [] []
    else if s = "4" then .resp 301 [("location", "5")] [] []
    else if s = "5" then .resp 301 [("location", "6")] [] []
    else if s = "6" then .resp 301 [("location", "7")] [] []
    else if s = "7" then .resp 301 [("location", "8")] [] []
    else if s = "8" then .resp 301 [("location", "9")] [] []
    else if s = "9" then .resp 301 [("location", "10")] [] []
    else if s = "10" then .resp 301 [("location", "11")] [] []
    else .resp 200 [] [] [104]

/-- The 9-redirect prefix of the same chain: `"9"` answers terminally. -/
def chain9Server : String → ServerBehavior :=
  fun s => if s = "9" then .resp 200 [] [] [104] else chain11Server s

theorem splitAux_ne_nil (sep : Char) (l : List Char) : JS.splitAux sep l ≠ [] := by
  induction l with
  | nil => simp [JS.splitAux]
  | cons c rest ih =>
    rw [JS.splitAux]
    by_cases h : (c == sep) = true
    · simp [h]
    · simp only [h]
      cases hr : JS.splitAux sep rest <;> simp [Bool.not_eq_true] at h <;> simp [h]

theorem split_ne_nil (s : String) (sep : Char) : JS.split s sep ≠ [] := by
  unfold JS.split
  have h := splitAux_ne_nil sep s.data
  simp only [ne_eq, List.map_eq_nil_iff]
  exact h

theorem firstSuccess_append_identity (fs : List (Buffer → Option Buffer)) (w : Buffer) :
    (firstSuccess (fs ++ [identity]) w).isSome = true := by
  induction fs with
  | nil => simp [firstSuccess, tryToDecompress, identity]
  | cons f fs ih =>
    simp only [List.cons_append, firstSuccess, tryToDecompress]
    cases h : f w <;> simp [h, ih]

theorem priorityOf_le_three {s : String} {p : Nat} (h : priorityOf s = some p) : p ≤ 3 := by
  unfold priorityOf at h
  split_ifs at h <;> simp_all <;> omega

theorem decompressors_ends_identity (d : DecompressPrimitives) (a : String) :
    ∃ fs, decompressors d a = fs ++ [identity] := by
  unfold decompressors
  cases h1 : priorityOf (JS.trim a) with
  | none => exact ⟨[], rfl⟩
  | some p1 =>
    cases h2 : priorityOf a with
    | none => exact ⟨[d.decompressBrotli, d.decompressGzip, inflate d], rfl⟩
    | some p =>
      have hp : p ≤ 3 := priorityOf_le_three h2
      interval_cases p
      · exact ⟨[d.decompressBrotli, d.decompressGzip, inflate d], rfl⟩
      · exact ⟨[d.decompressGzip, inflate d], rfl⟩
      · exact ⟨[inflate d], rfl⟩
      · exact ⟨[], rfl⟩

theorem decompressChain_isSome (d : DecompressPrimitives) :
    ∀ (algs : List String) (w : Buffer), algs ≠ [] → (decompressChain d algs w).isSome = true := by
  intro algs
  induction algs with
  | nil => intro w h; exact absurd rfl h
  | cons a rest ih =>
    intro w _
    obtain ⟨fs, hfs⟩ := decompressors_ends_identity d (JS.trim a)
    have hs := firstSuccess_append_identity fs w
    rw [← hfs] at hs
    cases hb : firstSuccess (decompressors d (JS.trim a)) w with
    | none => rw [hb] at hs; simp at hs
    | some rb =>
      cases rest with
      | nil => simp [decompressChain, hb]
      | cons r rs =>
        simp only [decompressChain, hb, List.isEmpty_cons, if_false, Bool.false_eq_true]
        exact ih rb (by simp)

theorem decompressResponse_isSome (d : DecompressPrimitives) (ce : Option String) (w : Buffer) :
    (decompressResponse d ce w).isSome = true := by
  unfold decompressResponse
  cases ce with
  | none => exact decompressChain_isSome d [""] w (by simp)
  | some s => exact decompressChain_isSome d (JS.split s ',') w (split_ne_nil s ',')

/-- Claim C1 (counterexample): the cascade does not consume encoding tokens
from the right.  With decoders for which `[1, 2, 42]` is the brotli
compression of `[2, 42]`, itself the gzip compression of `[42]` (so the
declared `gzip, br` wire bytes are brotli-then-gzip nested), the claim says
`decompressResponse` first undoes brotli then gzip, recovering `[42]`;
instead the source shifts the leftmost token first, its gzip-start cascade
degrades to identity on the brotli bytes, and only brotli is undone,
leaving the still-gzip-compressed `[2, 42]`. -/
theorem multi_token_reverse_order_cex :
    testD.decompressBrotli [1, 2, 42] = some [2, 42] ∧
    testD.decompressGzip [2, 42] = some [42] ∧
    testD.decompressGzip [1, 2, 42] = none ∧
    inflate testD [1, 2, 42] = none ∧
    decompressResponse testD (some "gzip, br") [1, 2, 42] = some [2, 42] ∧
    decompressResponse testD (some "gzip, br") [1, 2, 42] ≠ some [42] := by
  refine ⟨rfl, rfl, rfl, rfl, rfl, ?_⟩
  decide

/-- Claim C1 (amended): for a multi-token content-encoding declaration the
cascade consumes one token per decode step from the LEFT (declaration
order), not the right.  For declared `gzip, br` the first step runs the
gzip-start cascade and the second the brotli-start cascade; on wire bytes
that are actually brotli-compressed (gzip applied first, brotli last), the
gzip and inflate decoders fail, the first step degrades to the identity
copy, and the second step undoes brotli — so the result is the
brotli-decode of the wire bytes (still gzip-compressed), not the original
bytes. -/
theorem multi_token_left_order (d : DecompressPrimitives) (wire mid : Buffer)
    (hgzip : d.decompressGzip wire = none)
    (hinflate : inflate d wire = none)
    (hbrotli : d.decompressBrotli wire = some mid) :
    decompressResponse d (some "gzip, br") wire = some mid := by
  have h1 : firstSuccess (decompressors d (JS.trim "gzip")) wire = some wire := by
    have e1 : decompressors d (JS.trim "gzip") = [d.decompressGzip, inflate d, identity] := rfl
    rw [e1]
    simp [firstSuccess, tryToDecompress, hgzip, hinflate, identity]
  have h2 : firstSuccess (decompressors d (JS.trim " br")) wire = some mid := by
    have e2 : decompressors d (JS.trim " br") =
        [d.decompressBrotli, d.decompressGzip, inflate d, identity] := rfl
    rw [e2]
    simp [firstSuccess, tryToDecompress, hbrotli]
  show decompressChain d ["gzip", " br"] wire = some mid
  rw [decompressChain, h1]
  show decompressChain d [" br"] wire = some mid
  rw [decompressChain, h2]
  simp

/-- Claim C1 (witness for the amended theorem): at the concrete decoders and
buffers of the counterexample, the hypotheses hold and only brotli is
undone. -/
theorem multi_token_left_order_witness :
    decompressResponse testD (some "gzip, br") [1, 2, 42] = some [2, 42] :=
  multi_token_left_order testD [1, 2, 42] [2, 42] rfl rfl rfl

/-- Claim C2: for a single declared encoding token the cascade tries
brotli, gzip, deflate/raw-inflate, identity starting at the index mapped
from the token (`br` ↦ 0, `gzip` ↦ 1, `deflate` ↦ 2, `identity` and any
unrecognized token ↦ 3), each individual decoder failure is swallowed
(moving on to the next candidate), and the result is that of the first
decoder that succeeds; hence gzip-compressed bytes declared `br` are still
decompressed via the gzip fallback, and an unrecognized token yields an
identity copy of the input. -/
theorem single_token_cascade (d : DecompressPrimitives) (raw out : Buffer) :
    decompressors d "br" = [d.decompressBrotli, d.decompressGzip, inflate d, identity] ∧
    decompressors d "gzip" = [d.decompressGzip, inflate d, identity] ∧
    decompressors d "deflate" = [inflate d, identity] ∧
    decompressors d "identity" = [identity] ∧
    decompressors d "x-made-up" = [identity] ∧
    (∀ (f : Buffer → Option Buffer) (fs : List (Buffer → Option Buffer)),
      f raw = none → firstSuccess (f :: fs) raw = firstSuccess fs raw) ∧
    (∀ (f : Buffer → Option Buffer) (fs : List (Buffer → Option Buffer)) (b : Buffer),
      f raw = some b → firstSuccess (f :: fs) raw = some b) ∧
    (d.decompressBrotli raw = none → d.decompressGzip raw = some out →
      decompressResponse d (some "br") raw = some out) ∧
    decompressResponse d (some "x-made-up") raw = some raw := by
  refine ⟨rfl, rfl, rfl, rfl, rfl, ?_, ?_, ?_, rfl⟩
  · intro f fs h
    simp [firstSuccess, tryToDecompress, h]
  · intro f fs b h
    simp [firstSuccess, tryToDecompress, h]
  · intro h1 h2
    have e : JS.split "br" ',' = ["br"] := rfl
    have e1 : decompressors d (JS.trim "br") =
        [d.decompressBrotli, d.decompressGzip, inflate d, identity] := rfl
    simp [decompressResponse, e, decompressChain, e1, firstSuccess, tryToDecompress, h1, h2]

/-- Claim C2 (witness): concrete gzip-tagged bytes `[2, 42]` declared `br`
fall through the failing brotli decoder to gzip, and an unrecognized token
returns the identity copy. -/
theorem single_token_cascade_witness :
    decompressResponse testD (some "br") [2, 42] = some [42] ∧
    decompressResponse testD (some "x-made-up") [2, 42] = some [2, 42] :=
  ⟨(single_token_cascade testD [2, 42] [42]).2.2.2.2.2.2.2.1 rfl rfl,
   (single_token_cascade testD [2, 42] [42]).2.2.2.2.2.2.2.2⟩

/-- Claim C3: for every non-data-URI terminal response, the `rawResponse`
accessor of the result yields exactly the captured wire bytes; it does not
depend on the decompression primitives (hence not on whether decompression
succeeds), and a terminal (non-redirect) response always resolves to the
`NetworkData` built from those wire bytes with the redirect map untouched. -/
theorem raw_response_wire_bytes :
    (∀ (caps : Caps) (d d' : DecompressPrimitives) (m : RedirectMap)
        (uri0 uriString : String) (status : Nat) (hs rh : HttpHeaders) (wire : Buffer),
      (Requester.buildTerminal caps d m uri0 uriString status hs rh wire).response.body.rawResponse
          = wire ∧
      (Requester.buildTerminal caps d m uri0 uriString status hs rh wire).response.body.rawResponse
        = (Requester.buildTerminal caps d' m uri0 uriString status hs rh wire).response.body.rawResponse) ∧
    (∀ (caps : Caps) (d : DecompressPrimitives) (server : String → ServerBehavior)
        (maxR : Nat) (uri0 : String) (fuel : Nat) (m : RedirectMap) (requested : List String)
        (uriString : String) (status : Nat) (hs rh : HttpHeaders) (wire : Buffer),
      server uriString = .resp status hs rh wire →
      status ∉ Requester.validRedirects →
      Requester.getUri caps d server maxR uri0 (fuel + 1) m requested uriString =
        (.ok (Requester.buildTerminal caps d m uri0 uriString status hs rh wire), m)) := by
  constructor
  · intro caps d d' m uri0 uriString status hs rh wire
    exact ⟨rfl, rfl⟩
  · intro caps d server maxR uri0 fuel m requested uriString status hs rh wire hserver hstatus
    rw [Requester.getUri, hserver]
    simp [hstatus]

/-- Claim C3 (witness): a concrete terminal 200 response with wire bytes
`[9, 9]` resolves with exactly those bytes as `rawResponse`. -/
theorem raw_response_wire_bytes_witness :
    Requester.getUri testCaps testD termServer 10 "u" 1 [] [] "u" =
      (.ok (Requester.buildTerminal testCaps testD [] "u" "u" 200 [] [] [9, 9]), []) ∧
    (Requester.buildTerminal testCaps testD [] "u" "u" 200 [] [] [9, 9]).response.body.rawResponse
      = [9, 9] :=
  ⟨raw_response_wire_bytes.2 testCaps testD termServer 10 "u" 0 [] [] "u" 200 [] [] [9, 9] rfl
      (by decide),
   (raw_response_wire_bytes.1 testCaps testD testD [] "u" "u" 200 [] [] [9, 9]).1⟩

/-- Claim C4: when a redirect resolves to a target URI already in the
visited set accumulated during the current call (which includes the URI
just requested), `getUri` rejects with the redirect-loop error immediately
— the redirect map is left unchanged, no further request is issued (the
result does not depend on the server beyond the current response) — and in
particular the concrete cycle A→B→A terminates with that failure for every
remaining fuel, never recursing indefinitely. -/
theorem redirect_loop_detection :
    (∀ (caps : Caps) (d : DecompressPrimitives) (server : String → ServerBehavior)
        (maxR : Nat) (uri0 : String) (fuel : Nat) (m : RedirectMap) (requested : List String)
        (uriString : String) (status : Nat) (hs rh : HttpHeaders) (wire : Buffer) (location : String),
      server uriString = .resp status hs rh wire →
      status ∈ Requester.validRedirects →
      hs.lookup "location" = some location →
      location ≠ "" →
      caps.urlResolve uriString location ∈ uriString :: requested →
      Requester.getUri caps d server maxR uri0 (fuel + 1) m requested uriString =
        (.errRedirectLoop uriString, m)) ∧
    (∀ fuel : Nat,
      Requester.getUri testCaps testD loopServer 10 "A" (fuel + 2) [] [] "A" =
        (.errRedirectLoop "B", [("B", "A")])) := by
  constructor
  · intro caps d server maxR uri0 fuel m requested uriString status hs rh wire location
      hserver hstatus hlocation hne hmem
    rw [Requester.getUri, hserver]
    simp [hstatus, hlocation, hne, hmem]
  · intro fuel
    rfl

/-- Claim C4 (witness): the general rejection applied at the second hop of
the concrete A→B→A cycle, together with the concrete cycle run itself. -/
theorem redirect_loop_detection_witness :
    Requester.getUri testCaps testD loopServer 10 "A" 1 [] ["A"] "B" =
      (.errRedirectLoop "B", []) ∧
    Requester.getUri testCaps testD loopServer 10 "A" 2 [] [] "A" =
      (.errRedirectLoop "B", [("B", "A")]) :=
  ⟨redirect_loop_detection.1 testCaps testD loopServer 10 "A" 0 [] ["A"] "B" 301
      [("location", "A")] [] [] "A" rfl (by decide) rfl (by decide) (by decide),
   redirect_loop_detection.2 0⟩

/-- Claim C5 (counterexample): with the spec-modelled `RedirectManager`
(whose chain runs from the origin through the target inclusive, §4.1/§8),
the depth check does not fail "exactly at the 11th hop": on the 11-redirect
chain `"0" → … → "11"` with `maxRedirects = 10`, the call rejects while
processing the 10th redirect — the computed chain `["0", …, "10"]` has
length 11 > 10 — so the 11th target `"11"` is never recorded (and a chain of
only 9 redirects still resolves). -/
theorem too_many_redirects_tenth_hop_cex :
    (Requester.getUri testCaps testD chain11Server 10 "0" 20 [] [] "0").1 =
      .errTooManyRedirects 11 10 ∧
    ((Requester.getUri testCaps testD chain11Server 10 "0" 20 [] [] "0").2).lookup "11" = none ∧
    ((Requester.getUri testCaps testD chain11Server 10 "0" 20 [] [] "0").2).lookup "10" = some "9" ∧
    ((Requester.getUri testCaps testD chain9Server 10 "0" 20 [] [] "0").1).isOk = true := by
  refine ⟨rfl, rfl, rfl, rfl⟩

/-- Claim C5 (amended): on a followed redirect the edge is first recorded,
then the hop count computed for the target as the length of the
spec-modelled chain (origin through target, inclusive), and the call fails
with the too-many-redirects error exactly when that count exceeds
`maxRedirects` (default 10), otherwise it recurses into the target.  With
the default limit a fresh-map chain therefore fails at the 10th redirect
(inclusive chain length 11), so at most 9 redirects are followed — not at
the 11th hop as originally claimed. -/
theorem too_many_redirects_check (caps : Caps) (d : DecompressPrimitives)
    (server : String → ServerBehavior) (maxR : Nat) (uri0 : String) (fuel : Nat)
    (m : RedirectMap) (requested : List String) (uriString : String) (status : Nat)
    (hs rh : HttpHeaders) (wire : Buffer) (location newUri : String) (m' : RedirectMap) (n : Nat)
    (hserver : server uriString = .resp status hs rh wire)
    (hstatus : status ∈ Requester.validRedirects)
    (hlocation : hs.lookup "location" = some location)
    (hne : location ≠ "")
    (hnew : newUri = caps.urlResolve uriString location)
    (hfresh : newUri ∉ uriString :: requested)
    (hm : m' = RedirectManager.add m newUri uriString)
    (hn : n = (RedirectManager.calculate m' newUri).length) :
    (n > maxR →
      Requester.getUri caps d server maxR uri0 (fuel + 1) m requested uriString =
        (.errTooManyRedirects n maxR, m')) ∧
    (n ≤ maxR →
      Requester.getUri caps d server maxR uri0 (fuel + 1) m requested uriString =
        Requester.getUri caps d server maxR uri0 fuel m' (uriString :: requested) newUri) := by
  subst hnew hm hn
  rw [List.mem_cons] at hfresh
  push_neg at hfresh
  obtain ⟨hf1, hf2⟩ := hfresh
  constructor
  · intro hgt
    rw [Requester.getUri, hserver]
    simp [hstatus, hlocation, hne, hf1, hf2, hgt]
  · intro hle
    rw [Requester.getUri, hserver]
    simp [hstatus, hlocation, hne, hf1, hf2, Nat.not_lt.mpr hle]

/-- Claim C5 (witness): with `maxRedirects = 0`, the very first redirect
A→B records the edge, computes the inclusive chain `["A", "B"]` of length 2
> 0, and rejects. -/
theorem too_many_redirects_check_witness :
    Requester.getUri testCaps testD abServer 0 "A" 1 [] [] "A" =
      (.errTooManyRedirects 2 0, [("B", "A")]) :=
  (too_many_redirects_check testCaps testD abServer 0 "A" 0 [] [] "A" 301
      [("location", "B")] [] [] "B" "B" [("B", "A")] 2 rfl (by decide) rfl (by decide)
      rfl (by decide) rfl rfl).1 (by decide)

/-- Claim C6 (counterexample): the `hops` of a terminal result are not the
sequence "from the first redirect target to the final URI": for the single
redirect A→B (terminal at B) the spec-modelled chain is `["A", "B"]`,
which starts at the origin `"A"`, not at the first redirect target `"B"`. -/
theorem hops_first_element_cex :
    (Requester.getUri testCaps testD abServer 10 "A" 5 [] [] "A").1.hopsOf =
      some ["A", "B"] ∧
    some ["A", "B"] ≠ some ["B"] := by
  refine ⟨rfl, by decide⟩

/-- Claim C6 (amended): for every terminal non-data-URI result, `hops` is
the spec-modelled `RedirectManager` chain of the terminal URI — ordered from
the origin of the redirect chain through the final URI inclusive, and empty
when no redirect reached it — and `requestUrl` is the first element of
`hops` when that element is truthy (hence the origin URI) and the requested
URI itself otherwise; concretely, A→B yields hops `["A", "B"]` with
`requestUrl = "A"`, and a redirect-free fetch of `"T"` yields hops `[]`
with `requestUrl = "T"`. -/
theorem hops_and_request_url :
    (∀ (caps : Caps) (d : DecompressPrimitives) (m : RedirectMap)
        (uri0 uriString : String) (status : Nat) (hs rh : HttpHeaders) (wire : Buffer),
      (Requester.buildTerminal caps d m uri0 uriString status hs rh wire).response.hops =
        RedirectManager.calculate m uriString ∧
      (Requester.buildTerminal caps d m uri0 uriString status hs rh wire).request.url =
        Requester.jsHeadOr (RedirectManager.calculate m uriString) uriString) ∧
    (∀ uri : String, RedirectManager.calculate [] uri = []) ∧
    ((Requester.getUri testCaps testD abServer 10 "A" 5 [] [] "A").1.hopsOf =
        some ["A", "B"] ∧
     (Requester.getUri testCaps testD abServer 10 "A" 5 [] [] "A").1.requestUrlOf =
        some "A" ∧
     (Requester.getUri testCaps testD termServer 10 "T" 5 [] [] "T").1.hopsOf = some [] ∧
     (Requester.getUri testCaps testD termServer 10 "T" 5 [] [] "T").1.requestUrlOf =
        some "T") := by
  refine ⟨fun caps d m uri0 uriString status hs rh wire => ⟨rfl, rfl⟩,
    fun uri => rfl, rfl, rfl, rfl, rfl⟩

/-- Claim C7: for every terminal response, the decoded text body is present
only when the resolved charset is supported by the charset decoder; when it
is unsupported, `content` is `null` while `rawContent` stays populated (the
cascade always produces bytes since its identity step cannot fail), and the
result is an ordinary `NetworkData` — no error is raised. -/
theorem unsupported_charset_body (caps : Caps) (d : DecompressPrimitives) (m : RedirectMap)
    (uri0 uriString : String) (status : Nat) (hs rh : HttpHeaders) (wire : Buffer) :
    (caps.encodingExists
        (Requester.buildTerminal caps d m uri0 uriString status hs rh wire).response.charset
          = false →
      (Requester.buildTerminal caps d m uri0 uriString status hs rh wire).response.body.content
        = none) ∧
    ((Requester.buildTerminal caps d m uri0 uriString status hs rh wire).response.body.rawContent).isSome
      = true ∧
    (∀ c, (Requester.buildTerminal caps d m uri0 uriString status hs rh wire).response.body.content
        = some c →
      caps.encodingExists
        (Requester.buildTerminal caps d m uri0 uriString status hs rh wire).response.charset
          = true) := by
  have hsome := decompressResponse_isSome d (caps.normalizeHeaderValue hs "content-encoding") wire
  cases hraw : decompressResponse d (caps.normalizeHeaderValue hs "content-encoding") wire with
  | none => rw [hraw] at hsome; simp at hsome
  | some rb =>
    refine ⟨?_, ?_, ?_⟩
    · intro h
      simp [Requester.buildTerminal, hraw] at h ⊢
      simp [h]
    · simp [Requester.buildTerminal, hraw]
    · intro c hc
      by_cases hcond : caps.encodingExists
          ((Requester.buildTerminal caps d m uri0 uriString status hs rh wire).response.charset)
            = true
      · exact hcond
      · exfalso
        simp [Requester.buildTerminal, hraw] at hc hcond
        simp [hcond] at hc

/-- Claim C7 (witness): with a resolver reporting the made-up charset
`x-made-up` (unsupported by the decoder), the decoded body is absent while
the raw content bytes survive. -/
theorem unsupported_charset_body_witness :
    (Requester.buildTerminal capsUnsupported testD [] "u" "u" 200 [] [] [5]).response.body.content
      = none ∧
    ((Requester.buildTerminal capsUnsupported testD [] "u" "u" 200 [] [] [5]).response.body.rawContent).isSome
      = true :=
  ⟨(unsupported_charset_body capsUnsupported testD [] "u" "u" 200 [] [] [5]).1 rfl,
   (unsupported_charset_body capsUnsupported testD [] "u" "u" 200 [] [] [5]).2.1⟩

/-- Claim C8: for every URI with the `data:` scheme, `get` bypasses network
and redirect handling entirely (the result is the same for every server and
leaves any redirect map unchanged) and returns the data-URI resolver's
record: status 200, empty request and response headers, no hops, charset
from the `charset` media-type parameter (`|| ''`), the parser's media type,
and the parsed payload bytes as the body (content, raw content, and raw
response alike). -/
theorem data_uri_result (caps : Caps) (d : DecompressPrimitives)
    (server : String → ServerBehavior) (maxR fuel : Nat) (m : RedirectMap) (uri : String)
    (hdata : JS.startsWith uri "data:" = true) :
    Requester.get caps d server maxR fuel m uri =
      (.ok (Requester.getResourceNetworkDataFromDataUri caps uri), m) ∧
    (∀ (server' : String → ServerBehavior) (m' : RedirectMap),
      Requester.get caps d server' maxR fuel m' uri =
        (.ok (Requester.getResourceNetworkDataFromDataUri caps uri), m')) ∧
    (Requester.getResourceNetworkDataFromDataUri caps uri).response.statusCode = 200 ∧
    (Requester.getResourceNetworkDataFromDataUri caps uri).request.headers = [] ∧
    (Requester.getResourceNetworkDataFromDataUri caps uri).response.headers = [] ∧
    (Requester.getResourceNetworkDataFromDataUri caps uri).response.hops = [] ∧
    (Requester.getResourceNetworkDataFromDataUri caps uri).response.charset =
      JS.orEmpty (caps.parseDataURL uri).charsetParam ∧
    (Requester.getResourceNetworkDataFromDataUri caps uri).response.mediaType =
      (caps.parseDataURL uri).mimeTypeString ∧
    (Requester.getResourceNetworkDataFromDataUri caps uri).response.body.content =
      some (BodyContent.buf (caps.parseDataURL uri).body) ∧
    (Requester.getResourceNetworkDataFromDataUri caps uri).response.body.rawContent =
      some (caps.parseDataURL uri).body ∧
    (Requester.getResourceNetworkDataFromDataUri caps uri).response.body.rawResponse =
      (caps.parseDataURL uri).body := by
  refine ⟨?_, ?_, rfl, rfl, rfl, rfl, rfl, rfl, rfl, rfl, rfl⟩
  · simp [Requester.get, hdata]
  · intro server' m'
    simp [Requester.get, hdata]

/-- Claim C8 (witness): `data:text/plain;charset=utf-8,Hello` (through a
parser capability producing its payload) yields status 200, no hops,
media type `text/plain`, charset `utf-8`, and the bytes of `"Hello"` as
body. -/
theorem data_uri_result_witness :
    Requester.get dataCaps testD termServer 10 5 [] "data:text/plain;charset=utf-8,Hello" =
      (.ok (Requester.getResourceNetworkDataFromDataUri dataCaps
        "data:text/plain;charset=utf-8,Hello"), []) ∧
    (Requester.getResourceNetworkDataFromDataUri dataCaps
        "data:text/plain;charset=utf-8,Hello").response.statusCode = 200 ∧
    (Requester.getResourceNetworkDataFromDataUri dataCaps
        "data:text/plain;charset=utf-8,Hello").response.hops = [] ∧
    (Requester.getResourceNetworkDataFromDataUri dataCaps
        "data:text/plain;charset=utf-8,Hello").response.charset = "utf-8" ∧
    (Requester.getResourceNetworkDataFromDataUri dataCaps
        "data:text/plain;charset=utf-8,Hello").response.mediaType = "text/plain" ∧
    (Requester.getResourceNetworkDataFromDataUri dataCaps
        "data:text/plain;charset=utf-8,Hello").response.body.content =
      some (BodyContent.buf (bytesOfString "Hello")) := by
  have h := data_uri_result dataCaps testD termServer 10 5 []
    "data:text/plain;charset=utf-8,Hello" rfl
  exact ⟨h.1, h.2.2.1, h.2.2.2.2.2.1, rfl, rfl, rfl⟩

/-- Claim C9 (counterexample): when the `Requester` is constructed with no
configuration at all, the effective options contain no `rejectUnauthorized`
key (the `defaults` object has none and the forcing assignment only runs
inside `if (customOptions)`), so certificate verification is NOT turned off
in that case; `followRedirect` is still disabled by the defaults. -/
theorem reject_unauthorized_no_config_cex :
    (mkRequester (fun hs => hs) none).options.rejectUnauthorized = none ∧
    (mkRequester (fun hs => hs) none).options.rejectUnauthorized ≠ some false ∧
    (mkRequester (fun hs => hs) none).options.followRedirect = some false := by
  refine ⟨rfl, by decide, rfl⟩

/-- Claim C9 (amended): the effective options always have `followRedirect =
false`; `rejectUnauthorized` is forced to `false` whenever a configuration
object is supplied (whatever it contains), but when no configuration is
supplied the key is simply absent, leaving certificate verification to the
HTTP client's own default. -/
theorem constructor_forced_options :
    (∀ (tlk : HttpHeaders → HttpHeaders) (co : CoreOptions),
      (mkRequester tlk (some co)).options.followRedirect = some false ∧
      (mkRequester tlk (some co)).options.rejectUnauthorized = some false) ∧
    (∀ tlk : HttpHeaders → HttpHeaders,
      (mkRequester tlk none).options.followRedirect = some false ∧
      (mkRequester tlk none).options.rejectUnauthorized = none) := by
  constructor
  · intro tlk co
    obtain ⟨enc, fr, ru, mr, hd, jar, time, tout⟩ := co
    cases hd <;> simp [mkRequester, assignOptions, jsAssignField]
  · intro tlk
    exact ⟨rfl, rfl⟩

/-- Claim C10: a caller-supplied `maxRedirects` of 0 falls through the
falsy-or `customOptions.maxRedirects || this._maxRedirects` to the default
limit of 10 (redirects are not forbidden); any nonzero value is used as
given, and an absent value also leaves the default 10. -/
theorem max_redirects_fallback :
    (∀ (tlk : HttpHeaders → HttpHeaders) (co : CoreOptions),
      co.maxRedirects = some 0 → (mkRequester tlk (some co)).maxRedirects = 10) ∧
    (∀ (tlk : HttpHeaders → HttpHeaders) (co : CoreOptions) (n : Nat),
      co.maxRedirects = some n → n ≠ 0 → (mkRequester tlk (some co)).maxRedirects = n) ∧
    (∀ (tlk : HttpHeaders → HttpHeaders) (co : CoreOptions),
      co.maxRedirects = none → (mkRequester tlk (some co)).maxRedirects = 10) := by
  refine ⟨?_, ?_, ?_⟩
  · intro tlk co h
    obtain ⟨enc, fr, ru, mr, hd, jar, time, tout⟩ := co
    simp only at h
    subst h
    cases hd <;> simp [mkRequester]
  · intro tlk co n h hn
    obtain ⟨enc, fr, ru, mr, hd, jar, time, tout⟩ := co
    simp only at h
    subst h
    have hbeq : (n == 0) = false := by simp [hn]
    cases hd <;> simp [mkRequester, hbeq]
  · intro tlk co h
    obtain ⟨enc, fr, ru, mr, hd, jar, time, tout⟩ := co
    simp only at h
    subst h
    cases hd <;> simp [mkRequester]

/-- Claim C10 (witness): `maxRedirects = 0` yields the default 10, while 7
is used as given. -/
theorem max_redirects_fallback_witness :
    (mkRequester (fun hs => hs) (some { maxRedirects := some 0 })).maxRedirects = 10 ∧
    (mkRequester (fun hs => hs) (some { maxRedirects := some 7 })).maxRedirects = 7 :=
  ⟨max_redirects_fallback.1 (fun hs => hs) { maxRedirects := some 0 } rfl,
   max_redirects_fallback.2.1 (fun hs => hs) { maxRedirects := some 7 } 7 rfl (by decide)⟩
